import Mathlib

/-!
Verification of the location-normalization / fuzzy-search / relevance-scoring
utilities of the Hirebuddy repository.

The development shallowly embeds the TypeScript sources:
  * `locationService.ts` (namespace `LocationService`),
  * the two `searchService.ts` variants (namespaces `SearchServiceA` and
    `SearchServiceB`),
  * the `LocationService` variant bundled in `utils/databaseTest.ts`
    (namespace `DatabaseTest.LocationService`).

JavaScript strings are modelled by `String` (operating on the underlying
`List Char`), JavaScript numbers by `Int`/`Nat` where the code only ever
produces integers and by `ℚ` where it divides; the division-by-zero `NaN`
produced by one similarity variant is modelled by `Option ℚ` with `none`
standing for `NaN`.
-/

set_option maxHeartbeats 4000000
set_option maxRecDepth 100000

/-! ### JavaScript string primitives -/

/-- Model of `String.prototype.toLowerCase` (all data in the tables is ASCII). -/
def toLowerStr (s : String) : String :=
  ⟨s.data.map Char.toLower⟩

/-- Model of `String.prototype.trim`: drop whitespace at both ends. -/
def trimStr (s : String) : String :=
  ⟨((s.data.dropWhile Char.isWhitespace).reverse.dropWhile Char.isWhitespace).reverse⟩

/-- Model of `a.startsWith(b)`. -/
def startsWithStr (s pat : String) : Bool :=
  pat.data.isPrefixOf s.data

/-- Model of `a.includes(b)` (substring containment). -/
def includesStr (s pat : String) : Bool :=
  s.data.tails.any (fun suf => pat.data.isPrefixOf suf)

/-- Helper for `splitWs`: accumulate the current (reversed) token. -/
def splitWsAux (cur : List Char) : List Char → List (List Char)
  | [] => if cur.isEmpty then [] else [cur.reverse]
  | c :: cs =>
    if c.isWhitespace then
      if cur.isEmpty then splitWsAux [] cs else cur.reverse :: splitWsAux [] cs
    else
      splitWsAux (c :: cur) cs

/-- Model of `s.split(/\s+/)` restricted to the nonempty tokens.  (JavaScript
also yields an empty boundary token when the string starts or ends with
whitespace; every call site in the embedded code either filters tokens by
length or treats the empty token as a non-match, so only the nonempty maximal
runs matter.) -/
def splitWs (s : String) : List String :=
  (splitWsAux [] s.data).map (fun cs => ⟨cs⟩)

/-- Model of `array.join(' ')`. -/
def joinSp (l : List String) : String :=
  ⟨List.intercalate [' '] (l.map String.data)⟩

/-- Code-point lexicographic comparison, the model of `a.localeCompare(b)`.
All strings compared by the embedded code are ASCII city names whose relative
order under ICU collation and under code-point order coincide. -/
def lexCompareChars : List Char → List Char → Int
  | [], [] => 0
  | [], _ :: _ => -1
  | _ :: _, [] => 1
  | a :: as, b :: bs =>
    if a < b then -1 else if b < a then 1 else lexCompareChars as bs

/-- Truthiness of an optional string (`undefined` and `""` are falsy). -/
def truthyOpt : Option String → Bool
  | some s => s != ""
  | none => false

/-- Lookup in an insertion-ordered association list with the overwrite
semantics of `Map.set` / record-field assignment: the last binding wins. -/
def recordGet (pairs : List (String × String)) (k : String) : Option String :=
  pairs.foldl (fun acc kv => if kv.1 == k then some kv.2 else acc) none

/-! ### Levenshtein distance

`SearchService.levenshteinDistance` (searchService variant B) and the
identical `LocationService.levenshteinDistance` in `databaseTest.ts` fill the
standard dynamic-programming matrix whose entry `[j][i]` is the edit distance
of the length-`i` prefix of `str1` and the length-`j` prefix of `str2`, with
unit-cost insertion, deletion and substitution, and return the corner entry.
`levChars` computes the same recurrence row by row (each row holds the
distances of the current suffix of `s` against all suffixes of `t`; the
recurrence is invariant under simultaneously reversing both strings, so the
corner value is the same edit distance the source matrix computes). -/

/-- Row of distances of `[]` against all suffixes of `t`: `[|t|, ..., 1, 0]`. -/
def levInit : List Char → List Nat
  | [] => [0]
  | _ :: bs => (bs.length + 1) :: levInit bs

/-- Given the row for `s` (against all suffixes of `t`), compute the row for
`a :: s`.  Cell `j` is `min` of deletion, insertion and substitution exactly
as in the source matrix. -/
def levStep (a : Char) : List Char → List Nat → List Nat
  | [], prev => [prev.headD 0 + 1]
  | b :: bs, prev =>
    match prev with
    | [] => []
    | pj :: prest =>
      let tail := levStep a bs prest
      (if a = b then prest.headD 0
       else 1 + min (prest.headD 0) (min (tail.headD 0) pj)) :: tail

/-- The dynamic-programming edit distance on character lists. -/
def levChars (s t : List Char) : Nat :=
  (s.foldr (fun a row => levStep a t row) (levInit t)).headD 0

/-- The textbook recursive characterisation of the edit distance computed by
the dynamic program (used only inside proofs; `levChars` is the executable
embedding). -/
def levRec : List Char → List Char → Nat
  | [], t => t.length
  | a :: s, [] => (a :: s).length
  | a :: s, b :: t =>
    if a = b then levRec s t
    else 1 + min (levRec s t) (min (levRec (a :: s) t) (levRec s (b :: t)))
termination_by s t => s.length + t.length
decreasing_by all_goals simp_arith

/-- The row of recursive distances of `s` against all suffixes of `t`; the
loop invariant of the dynamic program. -/
def rowSpec (s t : List Char) : List Nat :=
  t.tails.map (levRec s)

/-! ### Search-service variant B: string distance and similarity

Variant B is the second `SearchService` class in the source (the one whose
`searchJobs` has no `try`/`catch` and whose scores are uncapped). -/

namespace SearchServiceB

/-- Model of `SearchService.levenshteinDistance` (and of the identical
`LocationService.levenshteinDistance` in `databaseTest.ts`): the matrix-based
edit distance, computed here by `levChars`. -/
def levenshteinDistance (str1 str2 : String) : Nat :=
  levChars str1.data str2.data

/-- Model of `SearchService.calculateSimilarity` (and of the identical
`LocationService.calculateSimilarity` in `databaseTest.ts`): early returns for
identical and empty inputs, then `(longer - distance) / longer`.  The
`longer.length === 0` branch of the source is unreachable and kept verbatim. -/
def calculateSimilarity (str1 str2 : String) : ℚ :=
  if str1 = str2 then 1
  else if str1.data.length = 0 then 0
  else if str2.data.length = 0 then 0
  else
    let longer := if str1.data.length > str2.data.length then str1 else str2
    let shorter := if str1.data.length > str2.data.length then str2 else str1
    if longer.data.length = 0 then 1
    else ((longer.data.length : ℚ) - (levenshteinDistance longer shorter : ℚ))
          / (longer.data.length : ℚ)

end SearchServiceB

/-- The comparison `calculateSimilarity(str1, str2) > 0.6` exactly as the
source evaluates it on the early-return similarity above.  Rational division
does not reduce inside the Lean kernel, so the embedding computes the
equivalent cross-multiplied integer comparison (`(L-d)/L > 3/5`  iff
`5*(L-d) > 3*L` for `L > 0`); the lemma `similarityAbove6_iff` proves this
Boolean equal to the rational comparison on `calculateSimilarity`. -/
def similarityAbove6 (str1 str2 : String) : Bool :=
  if str1 = str2 then true
  else if str1.data.length = 0 then false
  else if str2.data.length = 0 then false
  else
    let maxLength := max str1.data.length str2.data.length
    let editDistance := levChars str1.data str2.data
    decide (5 * (maxLength - editDistance) > 3 * maxLength)

/-! ### `locationService.ts` -/

namespace LocationService

/-- The `LocationMapping` interface of `locationService.ts`. -/
structure LocationMapping where
  primary : String
  variations : List String
  state : Option String
  country : Option String
deriving Repr, DecidableEq

/-- The first third of the static `locationMappings` table of
`locationService.ts` (split only to keep elaboration of the long list
literal tractable). -/
def locationMappingsA : List LocationMapping := [
  ⟨"Bangalore", ["Bengaluru", "Bangaluru", "BLR"], some "Karnataka", some "India"⟩,
  ⟨"Mumbai", ["Bombay", "BOM"], some "Maharashtra", some "India"⟩,
  ⟨"Delhi", ["New Delhi", "NCR", "National Capital Region", "Gurgaon", "Gurugram", "Noida", "Faridabad", "Ghaziabad"], some "Delhi", some "India"⟩,
  ⟨"Gurugram", ["Gurgaon", "Gurgram"], some "Haryana", some "India"⟩,
  ⟨"Hyderabad", ["Hyd", "Cyberabad"], some "Telangana", some "India"⟩,
  ⟨"Chennai", ["Madras", "MAA"], some "Tamil Nadu", some "India"⟩,
  ⟨"Pune", ["Poona"], some "Maharashtra", some "India"⟩,
  ⟨"Kolkata", ["Calcutta", "CCU"], some "West Bengal", some "India"⟩,
  ⟨"Ahmedabad", ["AMD"], some "Gujarat", some "India"⟩,
  ⟨"Jaipur", ["JPR"], some "Rajasthan", some "India"⟩,
  ⟨"Lucknow", ["LKO"], some "Uttar Pradesh", some "India"⟩,
  ⟨"Kanpur", ["Cawnpore"], some "Uttar Pradesh", some "India"⟩,
  ⟨"Nagpur", ["NAG"], some "Maharashtra", some "India"⟩,
  ⟨"Indore", ["IDR"], some "Madhya Pradesh", some "India"⟩,
  ⟨"Thane", ["Thana"], some "Maharashtra", some "India"⟩,
  ⟨"Bhopal", ["BPL"], some "Madhya Pradesh", some "India"⟩,
  ⟨"Visakhapatnam", ["Vizag", "VSP"], some "Andhra Pradesh", some "India"⟩,
  ⟨"Patna", ["PAT"], some "Bihar", some "India"⟩,
  ⟨"Vadodara", ["Baroda", "BDQ"], some "Gujarat", some "India"⟩,
  ⟨"Ghaziabad", ["GZB"], some "Uttar Pradesh", some "India"⟩,
  ⟨"Ludhiana", ["LUH"], some "Punjab", some "India"⟩,
  ⟨"Agra", ["AGR"], some "Uttar Pradesh", some "India"⟩,
  ⟨"Nashik", ["Nasik", "ISK"], some "Maharashtra", some "India"⟩,
  ⟨"Ranchi", ["IXR"], some "Jharkhand", some "India"⟩,
  ⟨"Faridabad", ["FBD"], some "Haryana", some "India"⟩,
  ⟨"Noida", ["NOIDA"], some "Uttar Pradesh", some "India"⟩,
  ⟨"Chandigarh", ["CHD"], some "Chandigarh", some "India"⟩,
  ⟨"Coimbatore", ["CBE"], some "Tamil Nadu", some "India"⟩,
  ⟨"Kochi", ["Cochin", "COK"], some "Kerala", some "India"⟩,
  ⟨"Mysore", ["Mysuru", "MYQ"], some "Karnataka", some "India"⟩,
  ⟨"Vijayawada", ["VGA"], some "Andhra Pradesh", some "India"⟩,
  ⟨"Jabalpur", ["JLR"], some "Madhya Pradesh", some "India"⟩,
  ⟨"Gwalior", ["GWL"], some "Madhya Pradesh", some "India"⟩,
  ⟨"Jodhpur", ["JDH"], some "Rajasthan", some "India"⟩,
  ⟨"Madurai", ["IXM"], some "Tamil Nadu", some "India"⟩,
  ⟨"Guwahati", ["GAU"], some "Assam", some "India"⟩]

/-- The second third of the static `locationMappings` table of
`locationService.ts` (split only to keep elaboration of the long list
literal tractable). -/
def locationMappingsB : List LocationMapping := [
  ⟨"Chandigarh", ["CHD"], some "Chandigarh", some "India"⟩,
  ⟨"Hubli", ["Hubballi", "HBX"], some "Karnataka", some "India"⟩,
  ⟨"Mangalore", ["Mangaluru", "IXE"], some "Karnataka", some "India"⟩,
  ⟨"Dehradun", ["DED"], some "Uttarakhand", some "India"⟩,
  ⟨"Amritsar", ["ATQ"], some "Punjab", some "India"⟩,
  ⟨"Varanasi", ["Banaras", "VNS"], some "Uttar Pradesh", some "India"⟩,
  ⟨"Allahabad", ["Prayagraj", "IXD"], some "Uttar Pradesh", some "India"⟩,
  ⟨"Howrah", ["HWH"], some "West Bengal", some "India"⟩,
  ⟨"Aurangabad", ["IXU"], some "Maharashtra", some "India"⟩,
  ⟨"Solapur", ["SSE"], some "Maharashtra", some "India"⟩,
  ⟨"Srinagar", ["SXR"], some "Jammu and Kashmir", some "India"⟩,
  ⟨"Kolhapur", ["KLH"], some "Maharashtra", some "India"⟩,
  ⟨"Ajmer", ["AJM"], some "Rajasthan", some "India"⟩,
  ⟨"Gulbarga", ["Kalaburagi", "GBI"], some "Karnataka", some "India"⟩,
  ⟨"Loni", ["LONI"], some "Uttar Pradesh", some "India"⟩,
  ⟨"Ujjain", ["UJN"], some "Madhya Pradesh", some "India"⟩,
  ⟨"Siliguri", ["IXB"], some "West Bengal", some "India"⟩,
  ⟨"Jhansi", ["VNS"], some "Uttar Pradesh", some "India"⟩,
  ⟨"Saharanpur", ["SRE"], some "Uttar Pradesh", some "India"⟩,
  ⟨"Warangal", ["WGC"], some "Telangana", some "India"⟩,
  ⟨"Salem", ["SXV"], some "Tamil Nadu", some "India"⟩,
  ⟨"Malegaon", ["MAL"], some "Maharashtra", some "India"⟩,
  ⟨"Guntur", ["GNT"], some "Andhra Pradesh", some "India"⟩,
  ⟨"Bhiwandi", ["BHI"], some "Maharashtra", some "India"⟩,
  ⟨"Saharanpur", ["SRE"], some "Uttar Pradesh", some "India"⟩,
  ⟨"Cuttack", ["BBI"], some "Odisha", some "India"⟩,
  ⟨"Firozabad", ["FZD"], some "Uttar Pradesh", some "India"⟩,
  ⟨"Kochi", ["Cochin", "COK"], some "Kerala", some "India"⟩,
  ⟨"Nellore", ["NLR"], some "Andhra Pradesh", some "India"⟩,
  ⟨"Bhavnagar", ["BHU"], some "Gujarat", some "India"⟩,
  ⟨"Dehradun", ["DED"], some "Uttarakhand", some "India"⟩,
  ⟨"Durgapur", ["RDP"], some "West Bengal", some "India"⟩,
  ⟨"Asansol", ["ASN"], some "West Bengal", some "India"⟩,
  ⟨"Rourkela", ["RRK"], some "Odisha", some "India"⟩,
  ⟨"Bhilai", ["BIL"], some "Chhattisgarh", some "India"⟩,
  ⟨"Amravati", ["AMR"], some "Maharashtra", some "India"⟩]

/-- The third third of the static `locationMappings` table of
`locationService.ts` (split only to keep elaboration of the long list
literal tractable). -/
def locationMappingsC : List LocationMapping := [
  ⟨"Nanded", ["NDC"], some "Maharashtra", some "India"⟩,
  ⟨"Kolhapur", ["KLH"], some "Maharashtra", some "India"⟩,
  ⟨"Sangli", ["SLI"], some "Maharashtra", some "India"⟩,
  ⟨"Bikaner", ["BKB"], some "Rajasthan", some "India"⟩,
  ⟨"Bokaro", ["BKR"], some "Jharkhand", some "India"⟩,
  ⟨"Bhubaneswar", ["BBI"], some "Odisha", some "India"⟩,
  ⟨"Tiruchirappalli", ["Trichy", "TRZ"], some "Tamil Nadu", some "India"⟩,
  ⟨"Tiruppur", ["TIR"], some "Tamil Nadu", some "India"⟩,
  ⟨"Erode", ["ERD"], some "Tamil Nadu", some "India"⟩,
  ⟨"Tirunelveli", ["TIR"], some "Tamil Nadu", some "India"⟩,
  ⟨"Guntur", ["GNT"], some "Andhra Pradesh", some "India"⟩,
  ⟨"Rajahmundry", ["RJA"], some "Andhra Pradesh", some "India"⟩,
  ⟨"Kakinada", ["KAK"], some "Andhra Pradesh", some "India"⟩,
  ⟨"Nizamabad", ["NIZ"], some "Telangana", some "India"⟩,
  ⟨"Karimnagar", ["KRM"], some "Telangana", some "India"⟩,
  ⟨"Ramagundam", ["RMD"], some "Telangana", some "India"⟩,
  ⟨"Warangal", ["WGC"], some "Telangana", some "India"⟩,
  ⟨"Khammam", ["KHM"], some "Telangana", some "India"⟩,
  ⟨"Nalgonda", ["NLD"], some "Telangana", some "India"⟩,
  ⟨"Mahbubnagar", ["MBN"], some "Telangana", some "India"⟩,
  ⟨"Adilabad", ["ADB"], some "Telangana", some "India"⟩,
  ⟨"Suryapet", ["SRP"], some "Telangana", some "India"⟩,
  ⟨"Jagtial", ["JGT"], some "Telangana", some "India"⟩,
  ⟨"Mancherial", ["MCR"], some "Telangana", some "India"⟩,
  ⟨"Peddapalli", ["PDP"], some "Telangana", some "India"⟩,
  ⟨"Kamareddy", ["KMR"], some "Telangana", some "India"⟩,
  ⟨"Siddipet", ["SDP"], some "Telangana", some "India"⟩,
  ⟨"Medak", ["MDK"], some "Telangana", some "India"⟩,
  ⟨"Sangareddy", ["SGR"], some "Telangana", some "India"⟩,
  ⟨"Medchal", ["MCL"], some "Telangana", some "India"⟩,
  ⟨"Rangareddy", ["RGR"], some "Telangana", some "India"⟩,
  ⟨"Vikarabad", ["VKB"], some "Telangana", some "India"⟩,
  ⟨"Sangareddy", ["SGR"], some "Telangana", some "India"⟩,
  ⟨"Medchal", ["MCL"], some "Telangana", some "India"⟩,
  ⟨"Rangareddy", ["RGR"], some "Telangana", some "India"⟩,
  ⟨"Vikarabad", ["VKB"], some "Telangana", some "India"⟩]

/-- The static `locationMappings` table of `locationService.ts`, transcribed
verbatim (including the duplicated entries of the source). -/
def locationMappings : List LocationMapping :=
  locationMappingsA ++ locationMappingsB ++ locationMappingsC


/-- The reverse-lookup `Map` built in the static initialiser: for each mapping
(in table order) the lowercased primary and then each lowercased variation is
bound to the primary name; `Map.set` overwrite semantics are captured by
`recordGet`. -/
def locationLookupPairs : List (String × String) :=
  locationMappings.foldl
    (fun acc m =>
      acc ++ (toLowerStr m.primary, m.primary)
          :: m.variations.map (fun v => (toLowerStr v, m.primary)))
    []

/-- Model of `LocationService.normalizeLocation` in `locationService.ts`:
empty input is returned as is; otherwise the trimmed lowercased input is
looked up and on a miss the ORIGINAL (untrimmed) input is returned.  The
JavaScript `map.get(x) || location` falls back on `location` exactly when the
lookup misses, since every stored value is a nonempty primary name. -/
def normalizeLocation (location : String) : String :=
  if location == "" then location
  else (recordGet locationLookupPairs (toLowerStr (trimStr location))).getD location

/-- Model of `LocationService.calculateSimilarity` in `locationService.ts`
(and of the identical `SearchService.calculateSimilarity` of search variant
A): `1 - distance / maxLength` over the same dynamic program as `levChars`.
When both strings are empty the JavaScript code computes `1 - 0 / 0 = NaN`;
the `NaN` result is modelled by `none`. -/
def calculateSimilarity (str1 str2 : String) : Option ℚ :=
  let maxLength := max str1.data.length str2.data.length
  if maxLength = 0 then none
  else some (1 - (levChars str1.data str2.data : ℚ) / (maxLength : ℚ))

/-- First pass of `LocationService.searchLocations`: collect (in table order,
deduplicated exactly as the `seen` set does) the primaries whose primary name
or one of whose variations contains the query. -/
def exactPhase (nq : String) : List LocationMapping → List String → List String
  | [], results => results
  | m :: rest, results =>
    if (includesStr (toLowerStr m.primary) nq
        || m.variations.any (fun v => includesStr (toLowerStr v) nq))
        && !(results.contains m.primary) then
      exactPhase nq rest (results ++ [m.primary])
    else
      exactPhase nq rest results

/-- Second pass of `LocationService.searchLocations`: append primaries whose
primary name is similar to the query above 0.6, skipping elements once the
limit is reached (the early `return` inside `forEach` only skips the current
element).  A `NaN` similarity compares as false, as in JavaScript. -/
def fuzzyPhase (nq : String) (limit : Nat) :
    List LocationMapping → List String → List String
  | [], results => results
  | m :: rest, results =>
    if results.length ≥ limit then
      fuzzyPhase nq limit rest results
    else if (match calculateSimilarity nq (toLowerStr m.primary) with
             | some q => decide (q > 0.6)
             | none => false)
            && !(results.contains m.primary) then
      fuzzyPhase nq limit rest (results ++ [m.primary])
    else
      fuzzyPhase nq limit rest results

/-- Model of `LocationService.searchLocations` in `locationService.ts`:
queries shorter than two characters yield `[]`; otherwise substring matches in
table order followed by fuzzy matches, truncated to `limit`. -/
def searchLocations (query : String) (limit : Nat) : List String :=
  if query == "" || query.data.length < 2 then []
  else
    let normalizedQuery := toLowerStr query
    (fuzzyPhase normalizedQuery limit locationMappings
      (exactPhase normalizedQuery locationMappings [])).take limit

end LocationService

/-! ### The `LocationService` variant of `utils/databaseTest.ts` -/

namespace DatabaseTest

namespace LocationService

/-- The `locationMappings` record of the `databaseTest.ts` variant: key
(primary) with its variation list, in the insertion order of the object
literal. -/
def locationMappings : List (String × List String) := [
  ("Bangalore", ["Bengaluru", "Bangaluru", "BLR", "Bangalore, Karnataka", "Bengaluru, Karnataka"]),
  ("Bengaluru", ["Bangalore", "Bangaluru", "BLR", "Bangalore, Karnataka", "Bengaluru, Karnataka"]),
  ("Mumbai", ["Bombay", "BOM", "Mumbai, Maharashtra", "Bombay, Maharashtra"]),
  ("Bombay", ["Mumbai", "BOM", "Mumbai, Maharashtra", "Bombay, Maharashtra"]),
  ("Delhi", ["New Delhi", "NCR", "Delhi, India", "New Delhi, India", "National Capital Region"]),
  ("New Delhi", ["Delhi", "NCR", "Delhi, India", "New Delhi, India", "National Capital Region"]),
  ("Gurugram", ["Gurgaon", "Gurgram", "Gurugram, Haryana", "Gurgaon, Haryana"]),
  ("Gurgaon", ["Gurugram", "Gurgram", "Gurugram, Haryana", "Gurgaon, Haryana"]),
  ("Hyderabad", ["Hyd", "Hyderabad, Telangana", "Hyderabad, AP"]),
  ("Chennai", ["Madras", "Chennai, Tamil Nadu", "Madras, Tamil Nadu"]),
  ("Madras", ["Chennai", "Chennai, Tamil Nadu", "Madras, Tamil Nadu"]),
  ("Pune", ["Pune, Maharashtra"]),
  ("Noida", ["Noida, UP", "Noida, Uttar Pradesh"]),
  ("Kolkata", ["Calcutta", "Kolkata, West Bengal", "Calcutta, West Bengal"]),
  ("Calcutta", ["Kolkata", "Kolkata, West Bengal", "Calcutta, West Bengal"]),
  ("Ahmedabad", ["Ahmadabad", "Ahmedabad, Gujarat", "Ahmadabad, Gujarat"]),
  ("Ahmadabad", ["Ahmedabad", "Ahmedabad, Gujarat", "Ahmadabad, Gujarat"]),
  ("Jaipur", ["Jaipur, Rajasthan"]),
  ("Lucknow", ["Lucknow, UP", "Lucknow, Uttar Pradesh"]),
  ("Chandigarh", ["Chandigarh, Punjab", "Chandigarh, Haryana"]),
  ("Indore", ["Indore, Madhya Pradesh"]),
  ("Bhopal", ["Bhopal, Madhya Pradesh"]),
  ("Vadodara", ["Baroda", "Vadodara, Gujarat", "Baroda, Gujarat"]),
  ("Baroda", ["Vadodara", "Vadodara, Gujarat", "Baroda, Gujarat"]),
  ("Coimbatore", ["Coimbatore, Tamil Nadu"]),
  ("Vishakhapatnam", ["Vizag", "Vishakhapatnam, Andhra Pradesh", "Vizag, Andhra Pradesh"]),
  ("Vizag", ["Vishakhapatnam", "Vishakhapatnam, Andhra Pradesh", "Vizag, Andhra Pradesh"]),
  ("Remote", ["Work from Home", "WFH", "Remote Work", "Home Office", "Virtual", "Online"]),
  ("Work from Home", ["Remote", "WFH", "Remote Work", "Home Office", "Virtual", "Online"]),
  ("WFH", ["Remote", "Work from Home", "Remote Work", "Home Office", "Virtual", "Online"])]

/-- The `locationLookupMap` record built in the static initialiser; later
bindings overwrite earlier ones (record-field assignment), captured by
`recordGet`. -/
def locationLookupPairs : List (String × String) :=
  locationMappings.foldl
    (fun acc e =>
      acc ++ (toLowerStr e.1, e.1) :: e.2.map (fun v => (toLowerStr v, e.1)))
    []

/-- The curated `getPopularLocations` constant list. -/
def getPopularLocations : List String :=
  ["Bangalore", "Mumbai", "Delhi", "Hyderabad", "Chennai",
   "Pune", "Gurugram", "Noida", "Kolkata", "Ahmedabad",
   "Jaipur", "Lucknow", "Chandigarh", "Indore", "Remote"]

/-- Model of `LocationService.normalizeLocation` in `databaseTest.ts`: empty
input yields `""`; otherwise the trimmed lowercased input is looked up and on
a miss the TRIMMED input is returned (`map[x] || location.trim()`; every
stored value is a nonempty primary name). -/
def normalizeLocation (location : String) : String :=
  if location == "" then ""
  else (recordGet locationLookupPairs (toLowerStr (trimStr location))).getD (trimStr location)

/-- `LocationService.calculateSimilarity` in `databaseTest.ts` is character
for character the similarity of search-service variant B. -/
def calculateSimilarity (str1 str2 : String) : ℚ :=
  SearchServiceB.calculateSimilarity str1 str2

/-- `LocationService.levenshteinDistance` in `databaseTest.ts` is character
for character the distance of search-service variant B. -/
def levenshteinDistance (str1 str2 : String) : Nat :=
  SearchServiceB.levenshteinDistance str1 str2

/-- The per-entry match test inside `searchLocations`: the primary is added
when the primary name or any variation, lowercased, is equal to / starts
with / contains the search term or is similar to it above 0.6.  (The source
checks the four conditions with early returns inside `forEach`; adding the
primary once per matching name equals adding it when some name matches.) -/
def entryMatches (searchTerm : String) (e : String × List String) : Bool :=
  (e.1 :: e.2).any (fun name =>
    let nameLower := toLowerStr name
    nameLower == searchTerm
      || startsWithStr nameLower searchTerm
      || includesStr nameLower searchTerm
      || similarityAbove6 nameLower searchTerm)

/-- The collection loop of `searchLocations`: primaries of matching entries in
table order, deduplicated exactly as the `results` set does. -/
def collectMatches (searchTerm : String) :
    List (String × List String) → List String → List String
  | [], results => results
  | e :: rest, results =>
    if entryMatches searchTerm e && !(results.contains e.1) then
      collectMatches searchTerm rest (results ++ [e.1])
    else
      collectMatches searchTerm rest results

/-- The relevance comparator of `searchLocations`, returned value as in the
source: exact match first, then prefix, then substring, otherwise
`a.localeCompare(b)` (modelled by code-point comparison). -/
def relevanceCmp (searchTerm a b : String) : Int :=
  let aLower := toLowerStr a
  let bLower := toLowerStr b
  if aLower == searchTerm && !(bLower == searchTerm) then -1
  else if bLower == searchTerm && !(aLower == searchTerm) then 1
  else if startsWithStr aLower searchTerm && !(startsWithStr bLower searchTerm) then -1
  else if startsWithStr bLower searchTerm && !(startsWithStr aLower searchTerm) then 1
  else if includesStr aLower searchTerm && !(includesStr bLower searchTerm) then -1
  else if includesStr bLower searchTerm && !(includesStr aLower searchTerm) then 1
  else lexCompareChars a.data b.data

/-- Model of `LocationService.searchLocations` in `databaseTest.ts`: empty or
whitespace-only queries yield the popular list truncated to `limit`;
otherwise the matching primaries are sorted with `relevanceCmp` (JavaScript's
stable sort on a consistent comparator, modelled by `insertionSort`) and
truncated to `limit`. -/
def searchLocations (query : String) (limit : Nat) : List String :=
  if query == "" || (trimStr query).data.length == 0 then
    getPopularLocations.take limit
  else
    let searchTerm := trimStr (toLowerStr query)
    let resultArray := collectMatches searchTerm locationMappings []
    (List.insertionSort (fun a b => relevanceCmp searchTerm a b ≤ 0) resultArray).take limit

end LocationService

end DatabaseTest

/-! ### The job search services -/

/-- Modelled from the spec: the `Job` record (`@/types/job`) is imported by
the search services but its declaration is not under `src/`; the fields
follow spec section 3 (`JobRecord`) plus `isProbablyRemote`, which the search
code reads, with `createdAt` modelled as the epoch-millisecond timestamp the
code obtains via `new Date(...).getTime()`. -/
structure Job where
  id : String
  title : String
  company : String
  location : String
  description : String
  tags : List String
  isRemote : Bool
  isProbablyRemote : Bool
  createdAt : Int
deriving Repr, DecidableEq

/-- Modelled from the spec: the `JobFilters` record (`@/types/job`) as
consumed by `applyFilters` — optional free-text location, experience tier,
remote mode and company fields (`undefined` is `none`). -/
structure JobFilters where
  location : Option String
  experience : Option String
  remote : Option String
  company : Option String
deriving Repr, DecidableEq

/-- The `EnhancedSearchParams` interface (declared identically in both search
variants); optional fields model the `?` members. -/
structure EnhancedSearchParams where
  boostRecent : Option Bool
  boostRemote : Option Bool
  boostExperience : Option Bool
  fuzzySearch : Option Bool
  locationRadius : Option Nat
  query : Option String
  filters : Option JobFilters
  sortBy : Option String
  sortOrder : Option String
  limit : Option Nat
  offset : Option Nat
deriving Repr, DecidableEq

/-- Model of `getDaysSincePosted` (identical in both search variants):
`Math.ceil(|now - created| / 86400000)` on epoch milliseconds. -/
def getDaysSincePosted (now createdAt : Int) : Nat :=
  ((now - createdAt).natAbs + 86400000 - 1) / 86400000

/-! Search-service variant A is the first `SearchService` class of the
source: `searchJobs` wraps the whole pipeline in `try`/`catch`, scores start
at 50 and are capped at 100, and results carry `matchReasons`. -/

namespace SearchServiceA

/-- The `SearchResult` produced by variant A. -/
structure SearchResult where
  job : Job
  relevanceScore : Int
  matchReasons : List String
deriving Repr, DecidableEq

/-- The result shape of variant A's `searchJobs`. -/
structure SearchOut where
  jobs : List Job
  total : Nat
  results : List SearchResult
deriving Repr, DecidableEq

/-- The `{jobs: [], total: 0, results: []}` value returned by the `catch`. -/
def emptySearchOut : SearchOut :=
  ⟨[], 0, []⟩

/-- `SearchService.calculateSimilarity` of variant A is character for
character the matrix-based similarity of `locationService.ts`. -/
def calculateSimilarity (str1 str2 : String) : Option ℚ :=
  LocationService.calculateSimilarity str1 str2

/-- Model of variant A's `fuzzyMatch`: substring hit, else some word of the
text is similar to the query above 0.7 (a `NaN` similarity compares false). -/
def fuzzyMatch (text query : String) : Bool :=
  if includesStr text query then true
  else
    (splitWs text).any (fun word =>
      match calculateSimilarity query word with
      | some s => decide (s > 0.7)
      | none => false)

/-- Model of variant A's `applyTextSearch`: all whitespace-separated terms of
the query must match the concatenated searchable fields, by `fuzzyMatch` or
by plain containment. -/
def applyTextSearch (jobs : List Job) (query : String) (fuzzySearch : Bool) : List Job :=
  if trimStr query == "" then jobs
  else
    let searchTerms := (splitWs (toLowerStr query)).filter (fun t => t.data.length > 0)
    jobs.filter (fun job =>
      let searchableText :=
        toLowerStr (joinSp ([job.title, job.company, job.location, job.description] ++ job.tags))
      searchTerms.all (fun term =>
        if fuzzySearch then fuzzyMatch searchableText term
        else includesStr searchableText term))

/-- Model of variant A's `extractExperienceLevel` keyword heuristics. -/
def extractExperienceLevel (description : String) : String :=
  let exp := toLowerStr description
  if includesStr exp "fresher" || includesStr exp "entry level" || includesStr exp "0-1 years" then
    "entry"
  else if includesStr exp "1-3 years" || includesStr exp "2-4 years" then
    "mid"
  else if includesStr exp "3-5 years" || includesStr exp "4-6 years" then
    "senior"
  else if includesStr exp "5+ years" || includesStr exp "6+ years" || includesStr exp "senior" then
    "senior"
  else if includesStr exp "lead" || includesStr exp "manager" || includesStr exp "architect" then
    "lead"
  else
    "mid"

/-- Model of variant A's `matchesExperienceFilter`: position in the fixed
hierarchy, `false` on `indexOf === -1`, else `jobIndex >= filterIndex`. -/
def matchesExperienceFilter (jobExperience filterExperience : String) : Bool :=
  let experienceHierarchy := ["entry", "mid", "senior", "lead"]
  match experienceHierarchy.indexOf? jobExperience,
        experienceHierarchy.indexOf? filterExperience with
  | some jobIndex, some filterIndex => jobIndex ≥ filterIndex
  | _, _ => false

/-- The static popular-company allow-list of variant A. -/
def isPopularCompany (company : String) : Bool :=
  let popularCompanies := [
    "google", "microsoft", "amazon", "apple", "meta", "facebook",
    "netflix", "uber", "airbnb", "twitter", "linkedin", "salesforce",
    "oracle", "ibm", "intel", "cisco", "adobe", "paypal", "stripe",
    "shopify", "zoom", "slack", "dropbox", "spotify", "snapchat",
    "tcs", "infosys", "wipro", "hcl", "tech mahindra", "cognizant",
    "accenture", "capgemini", "mindtree", "larsen & toubro", "lt",
    "reliance", "tata", "mahindra", "bharti airtel", "airtel"]
  popularCompanies.any (fun popular =>
    includesStr (toLowerStr company) (toLowerStr popular))

/-- Model of variant A's `applyFilters`: AND of the location (normalised
containment), experience, remote and company checks; absent or falsy filter
fields are no constraint. -/
def applyFilters (jobs : List Job) (filters : Option JobFilters) : List Job :=
  match filters with
  | none => jobs
  | some f =>
    jobs.filter (fun job =>
      (match f.location with
       | some loc =>
         if loc != "" && trimStr loc != "" then
           let normalizedFilterLocation := LocationService.normalizeLocation loc
           let normalizedJobLocation := LocationService.normalizeLocation job.location
           includesStr (toLowerStr normalizedJobLocation) (toLowerStr normalizedFilterLocation)
         else true
       | none => true)
      &&
      (match f.experience with
       | some ex =>
         if ex != "" && ex != "any" then
           matchesExperienceFilter (extractExperienceLevel job.description) ex
         else true
       | none => true)
      &&
      (match f.remote with
       | some r =>
         if r != "" && r != "all" then
           if r == "remote" && !job.isRemote && !job.isProbablyRemote then false
           else if r == "onsite" && (job.isRemote || job.isProbablyRemote) then false
           else true
         else true
       | none => true)
      &&
      (match f.company with
       | some c =>
         if c != "" && trimStr c != "" then
           includesStr (toLowerStr job.company) (toLowerStr c)
         else true
       | none => true))

/-- The per-job body of variant A's `calculateRelevanceScores`: base score 50,
fixed increments for recency, remote preference, experience match, title and
company query hits, location match and popular company, capped at 100, with
the match reasons pushed in source order. -/
def scoreJob (now : Int) (params : EnhancedSearchParams) (job : Job) : SearchResult :=
  let recentActive := params.boostRecent == some true
  let daysSincePosted := getDaysSincePosted now job.createdAt
  let recentInc : Int :=
    if recentActive then
      if daysSincePosted ≤ 7 then 20 else if daysSincePosted ≤ 30 then 10 else 0
    else 0
  let recentReasons : List String :=
    if recentActive then
      if daysSincePosted ≤ 7 then ["Recently posted"]
      else if daysSincePosted ≤ 30 then ["Posted this month"] else []
    else []
  let remoteActive := params.boostRemote == some true && (job.isRemote || job.isProbablyRemote)
  let remoteInc : Int := if remoteActive then 15 else 0
  let remoteReasons : List String := if remoteActive then ["Remote opportunity"] else []
  let expFilter := match params.filters with | some f => f.experience | none => none
  let expActive := params.boostExperience == some true
      && (match expFilter with | some e => e != "" && e != "any" | none => false)
  let expMatch := expActive
      && matchesExperienceFilter (extractExperienceLevel job.description) (expFilter.getD "")
  let expInc : Int := if expMatch then 15 else 0
  let expReasons : List String := if expMatch then ["Experience level match"] else []
  let queryActive := truthyOpt params.query
  let queryLower := toLowerStr (params.query.getD "")
  let titleMatch := queryActive && includesStr (toLowerStr job.title) queryLower
  let titleInc : Int := if titleMatch then 25 else 0
  let titleReasons : List String := if titleMatch then ["Title match"] else []
  let companyMatch := queryActive && includesStr (toLowerStr job.company) queryLower
  let companyInc : Int := if companyMatch then 15 else 0
  let companyReasons : List String := if companyMatch then ["Company match"] else []
  let locFilter := match params.filters with | some f => f.location | none => none
  let locActive := truthyOpt locFilter
  let normalizedFilterLocation := LocationService.normalizeLocation (locFilter.getD "")
  let normalizedJobLocation := LocationService.normalizeLocation job.location
  let locExact := locActive
      && toLowerStr normalizedJobLocation == toLowerStr normalizedFilterLocation
  let locPartial := locActive
      && !(toLowerStr normalizedJobLocation == toLowerStr normalizedFilterLocation)
      && includesStr (toLowerStr normalizedJobLocation) (toLowerStr normalizedFilterLocation)
  let locInc : Int := if locExact then 20 else if locPartial then 10 else 0
  let locReasons : List String :=
    if locExact then ["Exact location match"]
    else if locPartial then ["Location match"] else []
  let popActive := isPopularCompany job.company
  let popInc : Int := if popActive then 10 else 0
  let popReasons : List String := if popActive then ["Popular company"] else []
  let score := 50 + recentInc + remoteInc + expInc + titleInc + companyInc + locInc + popInc
  ⟨job, min score 100,
    recentReasons ++ remoteReasons ++ expReasons ++ titleReasons ++ companyReasons
      ++ locReasons ++ popReasons⟩

/-- Model of variant A's `calculateRelevanceScores`. -/
def calculateRelevanceScores (now : Int) (jobs : List Job) (params : EnhancedSearchParams) :
    List SearchResult :=
  jobs.map (scoreJob now params)

/-- The comparator of variant A's `applySorting` before the order sign flip. -/
def sortCmp (sortBy : String) (a b : SearchResult) : Int :=
  if sortBy == "created_at" then a.job.createdAt - b.job.createdAt
  else if sortBy == "job_title" then lexCompareChars a.job.title.data b.job.title.data
  else if sortBy == "company_name" then lexCompareChars a.job.company.data b.job.company.data
  else b.relevanceScore - a.relevanceScore

/-- Model of variant A's `applySorting` (the source sorts in place; the
embedding returns the sorted list, JavaScript's stable sort modelled by
`insertionSort`). -/
def applySorting (results : List SearchResult) (sortBy sortOrder : String) :
    List SearchResult :=
  List.insertionSort
    (fun a b =>
      (if sortOrder == "asc" then sortCmp sortBy a b else -(sortCmp sortBy a b)) ≤ 0)
    results

/-- Model of variant A's `applyPagination`: `slice(start, end)` with
`end = limit ? start + limit : length` (`limit === 0` is falsy). -/
def applyPagination (results : List SearchResult) (limit offset : Option Nat) :
    List SearchResult :=
  let start := offset.getD 0
  let stop := match limit with
    | some l => if l == 0 then results.length else start + l
    | none => results.length
  (results.take stop).drop start

/-- The body of variant A's `searchJobs` (the contents of the `try` block):
filter, text-search, score, sort by relevance, optional explicit sort,
paginate.  No operation of the pipeline throws, so the body is a total
function into `Except.ok`; `searchJobsTry` below models the `catch` over an
arbitrary body. -/
def searchJobsBody (now : Int) (jobs : List Job) (params : EnhancedSearchParams) :
    Except String SearchOut :=
  let filtered := applyFilters jobs params.filters
  let filtered2 :=
    if truthyOpt params.query then
      applyTextSearch filtered (params.query.getD "") (params.fuzzySearch.getD true)
    else filtered
  let searchResults := calculateRelevanceScores now filtered2 params
  let sorted1 :=
    List.insertionSort (fun a b => (b.relevanceScore - a.relevanceScore : Int) ≤ 0)
      searchResults
  let sorted2 :=
    if truthyOpt params.sortBy && truthyOpt params.sortOrder then
      applySorting sorted1 (params.sortBy.getD "") (params.sortOrder.getD "")
    else sorted1
  let paginated := applyPagination sorted2 params.limit params.offset
  Except.ok ⟨paginated.map SearchResult.job, sorted2.length, paginated⟩

/-- The `try`/`catch` of variant A's `searchJobs`: a normal result is
returned as is, any thrown error is logged and converted to the empty
result. -/
def searchJobsTry (body : Int → List Job → EnhancedSearchParams → Except String SearchOut)
    (now : Int) (jobs : List Job) (params : EnhancedSearchParams) : SearchOut :=
  match body now jobs params with
  | Except.ok r => r
  | Except.error _ => emptySearchOut

/-- Model of variant A's `searchJobs`. -/
def searchJobs (now : Int) (jobs : List Job) (params : EnhancedSearchParams) : SearchOut :=
  searchJobsTry searchJobsBody now jobs params

end SearchServiceA

namespace SearchServiceB

/-- The `{job, score}` pair produced by variant B's scoring pass. -/
structure JobScore where
  job : Job
  score : Int
deriving Repr, DecidableEq

/-- The static popular-company allow-list of variant B (the entries are
already lowercase and the source compares them without lowercasing). -/
def isPopularCompany (company : String) : Bool :=
  let popularCompanies := [
    "google", "microsoft", "amazon", "apple", "meta", "facebook",
    "netflix", "uber", "airbnb", "twitter", "linkedin", "salesforce",
    "oracle", "ibm", "intel", "adobe", "cisco", "vmware", "nvidia",
    "tcs", "infosys", "wipro", "hcl", "tech mahindra", "cognizant",
    "accenture", "capgemini", "deloitte", "ey", "pwc", "kpmg"]
  popularCompanies.any (fun popular => includesStr (toLowerStr company) popular)

/-- Model of variant B's `extractExperienceLevel` (note the `intern` tier and
the `any` default, both absent from variant A). -/
def extractExperienceLevel (description : String) : String :=
  let desc := toLowerStr description
  if includesStr desc "intern" || includesStr desc "internship" || includesStr desc "student" then
    "intern"
  else if includesStr desc "entry" || includesStr desc "junior" || includesStr desc "0-2" || includesStr desc "1-2" then
    "entry"
  else if includesStr desc "mid" || includesStr desc "intermediate" || includesStr desc "2-5" || includesStr desc "3-5" then
    "mid"
  else if includesStr desc "senior" || includesStr desc "5+" || includesStr desc "6+" || includesStr desc "7+" then
    "senior"
  else if includesStr desc "lead" || includesStr desc "principal" || includesStr desc "manager" || includesStr desc "architect" then
    "lead"
  else
    "any"

/-- Model of variant B's `matchesExperienceFilter`: `any` passes, otherwise
exact equality of tiers. -/
def matchesExperienceFilter (jobExperience filterExperience : String) : Bool :=
  if filterExperience == "any" then true else jobExperience == filterExperience

/-- The per-job body of variant B's `calculateRelevanceScores`: score starts
at 0, increments for recency, remote preference, experience match, popular
company and the query hits, WITHOUT any cap. -/
def scoreJob (now : Int) (params : EnhancedSearchParams) (job : Job) : JobScore :=
  let daysSincePosted := getDaysSincePosted now job.createdAt
  let recentInc : Int :=
    if params.boostRecent == some true then
      if daysSincePosted ≤ 7 then 50
      else if daysSincePosted ≤ 30 then 30
      else if daysSincePosted ≤ 90 then 10 else 0
    else 0
  let remoteFilter := match params.filters with | some f => f.remote | none => none
  let remoteInc : Int :=
    if params.boostRemote == some true && remoteFilter == some "remote" then
      if job.isRemote || job.isProbablyRemote then 30 else 0
    else 0
  let expFilter := match params.filters with | some f => f.experience | none => none
  let expInc : Int :=
    if params.boostExperience == some true
        && (match expFilter with | some e => e != "" && e != "any" | none => false) then
      if matchesExperienceFilter (extractExperienceLevel job.description) (expFilter.getD "")
      then 25 else 0
    else 0
  let popInc : Int := if isPopularCompany job.company then 15 else 0
  let queryActive := truthyOpt params.query
  let queryLower := toLowerStr (params.query.getD "")
  let searchableText := toLowerStr (joinSp [job.title, job.company, job.description, job.location])
  let exactInc : Int := if queryActive && includesStr searchableText queryLower then 100 else 0
  let searchTerms := splitWs queryLower
  let partialInc : Int :=
    if queryActive then
      ((searchTerms.filter (fun t => t.data.length > 1 && includesStr searchableText t)).length : Int) * 20
    else 0
  let titleInc : Int :=
    if queryActive && job.title != "" && includesStr (toLowerStr job.title) queryLower then 50 else 0
  let companyInc : Int :=
    if queryActive && job.company != "" && includesStr (toLowerStr job.company) queryLower then 40 else 0
  ⟨job, recentInc + remoteInc + expInc + popInc + exactInc + partialInc + titleInc + companyInc⟩

/-- Model of variant B's `calculateRelevanceScores`. -/
def calculateRelevanceScores (now : Int) (jobs : List Job) (params : EnhancedSearchParams) :
    List JobScore :=
  jobs.map (scoreJob now params)

end SearchServiceB

/-! ### Spec-side definitions used to state the claims -/

/-- The rank tier of a canonical name against the search term, following the
ordering of claim C1: exact match, prefix match, substring match, everything
else. -/
def matchTier (searchTerm name : String) : Nat :=
  let nameLower := toLowerStr name
  if nameLower == searchTerm then 0
  else if startsWithStr nameLower searchTerm then 1
  else if includesStr nameLower searchTerm then 2
  else 3

/-- Formalisation of claim C1 as stated: the canonical (primary) names whose
own lowercased name contains the query or is similar to it above 0.6, ranked
exact > prefix > substring > fuzzy with alphabetical tie-breaks, truncated to
the top `limit`. -/
def searchLocationsClaimC1 (query : String) (limit : Nat) : List String :=
  let searchTerm := trimStr (toLowerStr query)
  let eligible := (DatabaseTest.LocationService.locationMappings.map Prod.fst).filter
    (fun p => includesStr (toLowerStr p) searchTerm
      || similarityAbove6 (toLowerStr p) searchTerm)
  (List.insertionSort
    (fun a b => matchTier searchTerm a < matchTier searchTerm b
      ∨ (matchTier searchTerm a = matchTier searchTerm b
          ∧ lexCompareChars a.data b.data ≤ 0))
    eligible).take limit

/-- Membership test of the amended claim C1: the primary or one of its
registered variations contains the search term or is similar to it above
0.6. -/
def entryMatchesSpec (searchTerm : String) (e : String × List String) : Bool :=
  (e.1 :: e.2).any (fun name =>
    includesStr (toLowerStr name) searchTerm
      || similarityAbove6 (toLowerStr name) searchTerm)

/-- The amended claim C1: matching primaries (membership tested against the
primary AND its variations) ranked by the tier of the primary name alone with
alphabetical tie-breaks, truncated to the top `limit`. -/
def searchLocationsRankedAmended (query : String) (limit : Nat) : List String :=
  let searchTerm := trimStr (toLowerStr query)
  let matched := (DatabaseTest.LocationService.locationMappings.filter
      (entryMatchesSpec searchTerm)).map Prod.fst
  (List.insertionSort
    (fun a b => matchTier searchTerm a < matchTier searchTerm b
      ∨ (matchTier searchTerm a = matchTier searchTerm b
          ∧ lexCompareChars a.data b.data ≤ 0))
    matched).take limit

/-! ### Lemmas: the dynamic program computes the recursive edit distance -/

theorem levRec_nil_left (t : List Char) : levRec [] t = t.length := by
  simp [levRec]

theorem levRec_nil_right (s : List Char) : levRec s [] = s.length := by
  cases s <;> simp [levRec]

theorem levRec_cons_cons (a b : Char) (s t : List Char) :
    levRec (a :: s) (b :: t) =
      if a = b then levRec s t
      else 1 + min (levRec s t) (min (levRec (a :: s) t) (levRec s (b :: t))) := by
  rw [levRec]

theorem rowSpec_headD (s u : List Char) : (rowSpec s u).headD 0 = levRec s u := by
  cases u <;> simp [rowSpec]

theorem rowSpec_nil (s : List Char) : rowSpec s [] = [levRec s []] := by
  simp [rowSpec]

theorem rowSpec_cons (s : List Char) (b : Char) (bs : List Char) :
    rowSpec s (b :: bs) = levRec s (b :: bs) :: rowSpec s bs := by
  simp [rowSpec]

theorem levInit_eq (t : List Char) : levInit t = rowSpec [] t := by
  induction t with
  | nil => simp [levInit, rowSpec, levRec_nil_left]
  | cons b bs ih =>
    rw [levInit, rowSpec_cons, ih, levRec_nil_left]
    simp [List.length_cons]

theorem levStep_rowSpec (a : Char) (s : List Char) :
    ∀ t, levStep a t (rowSpec s t) = rowSpec (a :: s) t := by
  intro t
  induction t with
  | nil =>
    rw [rowSpec_nil, rowSpec_nil, levStep]
    simp [levRec_nil_right]
  | cons b bs ih =>
    rw [rowSpec_cons, rowSpec_cons, levStep]
    simp only [ih, rowSpec_headD]
    rw [levRec_cons_cons]

theorem levChars_eq_levRec (s t : List Char) : levChars s t = levRec s t := by
  have h : s.foldr (fun a row => levStep a t row) (levInit t) = rowSpec s t := by
    induction s with
    | nil => simpa using levInit_eq t
    | cons a s ih => simp only [List.foldr, ih, levStep_rowSpec]
  rw [levChars, h, rowSpec_headD]

theorem levRec_self (s : List Char) : levRec s s = 0 := by
  induction s with
  | nil => simp [levRec_nil_left]
  | cons a s ih => rw [levRec_cons_cons]; simp [ih]

theorem levRec_comm_aux : ∀ n s t, s.length + t.length ≤ n → levRec s t = levRec t s := by
  intro n
  induction n with
  | zero =>
    intro s t h
    have hs : s = [] := by cases s <;> simp_all
    have ht : t = [] := by cases t <;> simp_all
    simp [hs, ht]
  | succ n ih =>
    intro s t h
    match s, t with
    | [], t => simp [levRec_nil_left, levRec_nil_right]
    | a :: s, [] => simp [levRec_nil_left, levRec_nil_right]
    | a :: s, b :: t =>
      rw [levRec_cons_cons, levRec_cons_cons]
      have hst : levRec s t = levRec t s := by
        apply ih; simp at h; omega
      have h1 : levRec (a :: s) t = levRec t (a :: s) := by
        apply ih; simp at h ⊢; omega
      have h2 : levRec s (b :: t) = levRec (b :: t) s := by
        apply ih; simp at h ⊢; omega
      by_cases hab : a = b
      · subst hab; simp [hst]
      · have hba : ¬ b = a := fun hh => hab hh.symm
        rw [if_neg hab, if_neg hba, hst, h1, h2]
        omega

theorem levRec_comm (s t : List Char) : levRec s t = levRec t s :=
  levRec_comm_aux (s.length + t.length) s t le_rfl

theorem levRec_le_max_aux :
    ∀ n s t, s.length + t.length ≤ n → levRec s t ≤ max s.length t.length := by
  intro n
  induction n with
  | zero =>
    intro s t h
    have hs : s = [] := by cases s <;> simp_all
    have ht : t = [] := by cases t <;> simp_all
    simp [hs, ht, levRec_nil_left]
  | succ n ih =>
    intro s t h
    match s, t with
    | [], t => simp [levRec_nil_left]
    | a :: s, [] => simp [levRec_nil_right]
    | a :: s, b :: t =>
      rw [levRec_cons_cons]
      have hst : levRec s t ≤ max s.length t.length := by
        apply ih; simp at h; omega
      by_cases hab : a = b
      · rw [if_pos hab]; simp at hst ⊢; omega
      · rw [if_neg hab]; simp at hst ⊢; omega

theorem levRec_le_max (s t : List Char) : levRec s t ≤ max s.length t.length :=
  levRec_le_max_aux (s.length + t.length) s t le_rfl

theorem levChars_self (s : List Char) : levChars s s = 0 := by
  rw [levChars_eq_levRec, levRec_self]

theorem levChars_comm (s t : List Char) : levChars s t = levChars t s := by
  rw [levChars_eq_levRec, levChars_eq_levRec, levRec_comm]

theorem levChars_le_max (s t : List Char) : levChars s t ≤ max s.length t.length := by
  rw [levChars_eq_levRec]; exact levRec_le_max s t

/-! ### Lemmas about the similarity functions -/

theorem string_eq_of_data_eq {a b : String} (h : a.data = b.data) : a = b := by
  cases a; cases b; exact congrArg String.mk h

theorem string_empty_iff_data {a : String} : a = "" ↔ a.data = [] := by
  constructor
  · intro h; rw [h]
  · intro h; exact string_eq_of_data_eq h

theorem simB_eq_formula (a b : String) (h : 0 < max a.data.length b.data.length) :
    SearchServiceB.calculateSimilarity a b
      = (((max a.data.length b.data.length : ℕ) : ℚ) - (levChars a.data b.data : ℚ))
          / ((max a.data.length b.data.length : ℕ) : ℚ) := by
  have hmQ : ((max a.data.length b.data.length : ℕ) : ℚ) ≠ 0 := by
    exact_mod_cast Nat.pos_iff_ne_zero.mp h
  unfold SearchServiceB.calculateSimilarity SearchServiceB.levenshteinDistance
  by_cases hab : a = b
  · rw [if_pos hab]
    subst hab
    rw [levChars_self, eq_div_iff hmQ]
    push_cast
    ring
  · rw [if_neg hab]
    by_cases ha : a.data.length = 0
    · rw [if_pos ha]
      have hdata : a.data = [] := List.length_eq_zero.mp ha
      have h1 : levChars a.data b.data = b.data.length := by
        rw [hdata, levChars_eq_levRec, levRec_nil_left]
      have h2 : max a.data.length b.data.length = b.data.length := by
        rw [ha]; exact Nat.max_eq_right (Nat.zero_le _)
      rw [h1, h2]
      rw [h2] at hmQ
      rw [eq_div_iff hmQ]
      ring
    · rw [if_neg ha]
      by_cases hb : b.data.length = 0
      · rw [if_pos hb]
        have hdata : b.data = [] := List.length_eq_zero.mp hb
        have h1 : levChars a.data b.data = a.data.length := by
          rw [hdata, levChars_eq_levRec, levRec_nil_right]
        have h2 : max a.data.length b.data.length = a.data.length := by
          rw [hb]; exact Nat.max_eq_left (Nat.zero_le _)
        rw [h1, h2]
        rw [h2] at hmQ
        rw [eq_div_iff hmQ]
        ring
      · rw [if_neg hb]
        dsimp only
        by_cases hgt : a.data.length > b.data.length
        · simp only [if_pos hgt]
          rw [if_neg ha]
          rw [Nat.max_eq_left (Nat.le_of_lt hgt)]
        · simp only [if_neg hgt]
          rw [if_neg hb]
          rw [Nat.max_eq_right (Nat.le_of_not_lt hgt)]
          rw [show levChars b.data a.data = levChars a.data b.data from levChars_comm _ _]

theorem simB_self (a : String) : SearchServiceB.calculateSimilarity a a = 1 := by
  unfold SearchServiceB.calculateSimilarity
  rw [if_pos rfl]

theorem simB_bounds (a b : String) :
    0 ≤ SearchServiceB.calculateSimilarity a b
      ∧ SearchServiceB.calculateSimilarity a b ≤ 1 := by
  by_cases h : 0 < max a.data.length b.data.length
  · rw [simB_eq_formula a b h]
    have hd : levChars a.data b.data ≤ max a.data.length b.data.length :=
      levChars_le_max a.data b.data
    have hdQ : (levChars a.data b.data : ℚ) ≤ ((max a.data.length b.data.length : ℕ) : ℚ) := by
      exact_mod_cast hd
    have hmQ : (0:ℚ) < ((max a.data.length b.data.length : ℕ) : ℚ) := by exact_mod_cast h
    constructor
    · apply div_nonneg (by linarith)
      linarith
    · rw [div_le_one hmQ]
      have : (0:ℚ) ≤ (levChars a.data b.data : ℚ) := by positivity
      linarith
  · have ha : a.data = [] := by
      apply List.length_eq_zero.mp; omega
    have hb : b.data = [] := by
      apply List.length_eq_zero.mp; omega
    have hab : a = b := string_eq_of_data_eq (ha.trans hb.symm)
    subst hab
    rw [simB_self]
    constructor <;> norm_num

theorem simB_one_empty (a b : String)
    (h : (a = "" ∧ b ≠ "") ∨ (a ≠ "" ∧ b = "")) :
    SearchServiceB.calculateSimilarity a b = 0 := by
  unfold SearchServiceB.calculateSimilarity
  rcases h with ⟨ha, hb⟩ | ⟨ha, hb⟩
  · have hab : ¬ a = b := fun hh => hb (hh ▸ ha)
    rw [if_neg hab]
    have : a.data.length = 0 := by
      rw [string_empty_iff_data.mp ha]; rfl
    rw [if_pos this]
  · have hab : ¬ a = b := fun hh => ha (hh.trans hb)
    rw [if_neg hab]
    have hbl : b.data.length = 0 := by
      rw [string_empty_iff_data.mp hb]; rfl
    have hal : ¬ a.data.length = 0 := fun hh =>
      ha (string_empty_iff_data.mpr (List.length_eq_zero.mp hh))
    rw [if_neg hal, if_pos hbl]

theorem simLS_eq_formula (a b : String) (h : 0 < max a.data.length b.data.length) :
    LocationService.calculateSimilarity a b
      = some ((((max a.data.length b.data.length : ℕ) : ℚ) - (levChars a.data b.data : ℚ))
          / ((max a.data.length b.data.length : ℕ) : ℚ)) := by
  have hmQ : ((max a.data.length b.data.length : ℕ) : ℚ) ≠ 0 := by
    exact_mod_cast Nat.pos_iff_ne_zero.mp h
  unfold LocationService.calculateSimilarity
  dsimp only
  rw [if_neg (Nat.pos_iff_ne_zero.mp h)]
  congr 1
  rw [eq_div_iff hmQ, sub_mul, div_mul_cancel₀ _ hmQ]
  ring

/-- C3 (amended): the `calculateSimilarity` of the search service lies in
`[0, 1]`, is `1.0` on identical strings including the empty/empty case, is
`0.0` when exactly one argument is empty, and equals
`(max(len a, len b) - levenshteinDistance(a, b)) / max(len a, len b)` whenever
that maximum is positive; the matrix-based `calculateSimilarity` of
`locationService.ts` equals the same formula whenever the maximum is
positive — but on the empty/empty input it computes `1 - 0/0 = NaN`
(modelled `none`), not `1.0`, which is what forces the amendment. -/
theorem calculateSimilarity_amended :
    (∀ a b : String,
      0 ≤ SearchServiceB.calculateSimilarity a b
        ∧ SearchServiceB.calculateSimilarity a b ≤ 1) ∧
    (∀ a : String, SearchServiceB.calculateSimilarity a a = 1) ∧
    (∀ a b : String, (a = "" ∧ b ≠ "") ∨ (a ≠ "" ∧ b = "") →
      SearchServiceB.calculateSimilarity a b = 0) ∧
    (∀ a b : String, 0 < max a.data.length b.data.length →
      SearchServiceB.calculateSimilarity a b
        = (((max a.data.length b.data.length : ℕ) : ℚ)
              - (SearchServiceB.levenshteinDistance a b : ℚ))
            / ((max a.data.length b.data.length : ℕ) : ℚ)) ∧
    (∀ a b : String, 0 < max a.data.length b.data.length →
      LocationService.calculateSimilarity a b
        = some ((((max a.data.length b.data.length : ℕ) : ℚ)
              - (SearchServiceB.levenshteinDistance a b : ℚ))
            / ((max a.data.length b.data.length : ℕ) : ℚ))) :=
  ⟨simB_bounds, simB_self, simB_one_empty,
   fun a b h => simB_eq_formula a b h,
   fun a b h => simLS_eq_formula a b h⟩

/-- C3 counterexample: on the empty/empty input the matrix-based
`LocationService.calculateSimilarity` divides `0 / 0` and returns `NaN`
(modelled `none`), not the `1.0` the claim requires for identical strings. -/
theorem similarity_empty_empty_cx :
    LocationService.calculateSimilarity "" "" = none
      ∧ (none : Option ℚ) ≠ some 1 :=
  ⟨rfl, by decide⟩

/-- Witness for C3 (amended): the hypotheses of each conjunct discharged at
concrete strings. -/
theorem calculateSimilarity_amended_witness :
    (0 ≤ SearchServiceB.calculateSimilarity "ab" "b"
      ∧ SearchServiceB.calculateSimilarity "ab" "b" ≤ 1) ∧
    SearchServiceB.calculateSimilarity "ab" "ab" = 1 ∧
    ((("a" : String) = "" ∧ ("" : String) ≠ "") ∨ (("a" : String) ≠ "" ∧ ("" : String) = "")) ∧
    SearchServiceB.calculateSimilarity "a" "" = 0 ∧
    (0 < max ("ab" : String).data.length ("b" : String).data.length) ∧
    SearchServiceB.calculateSimilarity "ab" "b"
      = (((max ("ab" : String).data.length ("b" : String).data.length : ℕ) : ℚ)
            - (SearchServiceB.levenshteinDistance "ab" "b" : ℚ))
          / ((max ("ab" : String).data.length ("b" : String).data.length : ℕ) : ℚ) ∧
    LocationService.calculateSimilarity "ab" "b"
      = some ((((max ("ab" : String).data.length ("b" : String).data.length : ℕ) : ℚ)
            - (SearchServiceB.levenshteinDistance "ab" "b" : ℚ))
          / ((max ("ab" : String).data.length ("b" : String).data.length : ℕ) : ℚ)) := by
  have hxor : (("a" : String) = "" ∧ ("" : String) ≠ "")
      ∨ (("a" : String) ≠ "" ∧ ("" : String) = "") := Or.inr ⟨by decide, rfl⟩
  have hmax : 0 < max ("ab" : String).data.length ("b" : String).data.length := by decide
  exact ⟨calculateSimilarity_amended.1 "ab" "b",
    calculateSimilarity_amended.2.1 "ab",
    hxor,
    calculateSimilarity_amended.2.2.1 "a" "" hxor,
    hmax,
    calculateSimilarity_amended.2.2.2.1 "ab" "b" hmax,
    calculateSimilarity_amended.2.2.2.2 "ab" "b" hmax⟩

/-! ### Lemmas about the lookup maps and normalisation -/

theorem foldl_recordGet_mem (k v : String) :
    ∀ (pairs : List (String × String)) (acc : Option String),
      pairs.foldl (fun acc kv => if kv.1 == k then some kv.2 else acc) acc = some v →
      acc = some v ∨ v ∈ pairs.map Prod.snd := by
  intro pairs
  induction pairs with
  | nil => intro acc h; exact Or.inl h
  | cons kv rest ih =>
    intro acc h
    simp only [List.foldl_cons] at h
    rcases ih _ h with h' | h'
    · by_cases hk : (kv.1 == k) = true
      · rw [if_pos hk] at h'
        have hv : kv.2 = v := Option.some.inj h'
        right
        rw [← hv]
        simp
      · rw [if_neg hk] at h'
        exact Or.inl h'
    · right
      simp [h']

theorem recordGet_mem_values {pairs : List (String × String)} {k v : String}
    (h : recordGet pairs k = some v) : v ∈ pairs.map Prod.snd := by
  unfold recordGet at h
  rcases foldl_recordGet_mem k v pairs none h with h' | h'
  · cases h'
  · exact h'

/-- Every value stored in the `locationService.ts` lookup map is a nonempty
primary name whose trimmed lowercased form looks up to itself. -/
theorem locationLookupPairs_selfmap :
    LocationService.locationLookupPairs.all
      (fun kv => (kv.2 != "")
        && (recordGet LocationService.locationLookupPairs (toLowerStr (trimStr kv.2))
              == some kv.2)) = true := by
  decide

/-- C7: `normalizeLocation(normalizeLocation(x)) = normalizeLocation(x)` for
every string `x`, over the concrete alias table and reverse index of
`locationService.ts`: a miss returns the input unchanged, and every primary
name a hit can return normalises to itself. -/
theorem normalizeLocation_idempotent (s : String) :
    LocationService.normalizeLocation (LocationService.normalizeLocation s)
      = LocationService.normalizeLocation s := by
  cases hlook : recordGet LocationService.locationLookupPairs (toLowerStr (trimStr s)) with
  | none =>
    have hn : LocationService.normalizeLocation s = s := by
      unfold LocationService.normalizeLocation
      by_cases hs : s = ""
      · simp [hs]
      · simp [hs, hlook]
    rw [hn]
    exact hn
  | some p =>
    have hn : LocationService.normalizeLocation s = p := by
      unfold LocationService.normalizeLocation
      by_cases hs : s = ""
      · exfalso
        subst hs
        have hempty : recordGet LocationService.locationLookupPairs "" = none := by decide
        rw [show toLowerStr (trimStr "") = "" from rfl] at hlook
        rw [hempty] at hlook
        cases hlook
      · simp [hs, hlook]
    rw [hn]
    have hmem : p ∈ LocationService.locationLookupPairs.map Prod.snd :=
      recordGet_mem_values hlook
    obtain ⟨kv, hkv, hp⟩ := List.mem_map.mp hmem
    subst hp
    have hall := List.all_eq_true.mp locationLookupPairs_selfmap kv hkv
    simp only [Bool.and_eq_true, bne_iff_ne, beq_iff_eq] at hall
    unfold LocationService.normalizeLocation
    rw [if_neg (by simp [hall.1])]
    rw [hall.2]
    rfl

/-- C4 counterexample: in the `databaseTest.ts` variant the later
`"Bengaluru"` record overwrites the reverse index, so
`normalize("Bangalore")` is `"Bengaluru"`, not `"Bangalore"`. -/
theorem normalize_bangalore_cx :
    DatabaseTest.LocationService.normalizeLocation "Bangalore" = "Bengaluru"
      ∧ ("Bengaluru" : String) ≠ "Bangalore" :=
  ⟨by decide, by decide⟩

/-- C4 (amended): in `locationService.ts` both spellings normalise to
`"Bangalore"` as the claim states; in the `databaseTest.ts` variant the two
spellings still converge to one canonical form, but that form is
`"Bengaluru"` (the later record overwrites the index), not `"Bangalore"`. -/
theorem normalize_alias_convergence_amended :
    LocationService.normalizeLocation "Bengaluru" = "Bangalore" ∧
    LocationService.normalizeLocation "Bangalore" = "Bangalore" ∧
    DatabaseTest.LocationService.normalizeLocation "Bengaluru" = "Bengaluru" ∧
    DatabaseTest.LocationService.normalizeLocation "Bangalore"
      = DatabaseTest.LocationService.normalizeLocation "Bengaluru" :=
  ⟨by decide, by decide, by decide, by decide⟩

/-- C6 (amended): both `normalizeLocation` variants lowercase and trim the
input and return the canonical name on a lookup hit, and both are total; on a
miss, the `databaseTest.ts` variant returns the TRIMMED input (with `""` for
empty input), while the `locationService.ts` variant returns the original
input unchanged, untrimmed — the latter is what forces the amendment. -/
theorem normalize_lookup_amended (s : String) :
    (∀ p, recordGet DatabaseTest.LocationService.locationLookupPairs
        (toLowerStr (trimStr s)) = some p →
      DatabaseTest.LocationService.normalizeLocation s = p) ∧
    (recordGet DatabaseTest.LocationService.locationLookupPairs
        (toLowerStr (trimStr s)) = none →
      DatabaseTest.LocationService.normalizeLocation s = trimStr s) ∧
    (∀ p, recordGet LocationService.locationLookupPairs
        (toLowerStr (trimStr s)) = some p →
      LocationService.normalizeLocation s = p) ∧
    (recordGet LocationService.locationLookupPairs
        (toLowerStr (trimStr s)) = none →
      LocationService.normalizeLocation s = s) := by
  refine ⟨fun p hp => ?_, fun hnone => ?_, fun p hp => ?_, fun hnone => ?_⟩
  · unfold DatabaseTest.LocationService.normalizeLocation
    by_cases hs : s = ""
    · exfalso
      subst hs
      have hempty : recordGet DatabaseTest.LocationService.locationLookupPairs "" = none := by
        decide
      rw [show toLowerStr (trimStr "") = "" from rfl, hempty] at hp
      cases hp
    · simp [hs, hp]
  · unfold DatabaseTest.LocationService.normalizeLocation
    by_cases hs : s = ""
    · subst hs; rfl
    · simp [hs, hnone]
  · unfold LocationService.normalizeLocation
    by_cases hs : s = ""
    · exfalso
      subst hs
      have hempty : recordGet LocationService.locationLookupPairs "" = none := by decide
      rw [show toLowerStr (trimStr "") = "" from rfl, hempty] at hp
      cases hp
    · simp [hs, hp]
  · unfold LocationService.normalizeLocation
    by_cases hs : s = ""
    · subst hs; rfl
    · simp [hs, hnone]

/-- Witness for C6 (amended): a hit (`"BLR"`) and a miss (`" Atlantis "`) for
each variant. -/
theorem normalize_lookup_amended_witness :
    (recordGet DatabaseTest.LocationService.locationLookupPairs
        (toLowerStr (trimStr "BLR")) = some "Bengaluru"
      ∧ DatabaseTest.LocationService.normalizeLocation "BLR" = "Bengaluru") ∧
    (recordGet DatabaseTest.LocationService.locationLookupPairs
        (toLowerStr (trimStr " Atlantis ")) = none
      ∧ DatabaseTest.LocationService.normalizeLocation " Atlantis "
          = trimStr " Atlantis ") ∧
    (recordGet LocationService.locationLookupPairs
        (toLowerStr (trimStr "BLR")) = some "Bangalore"
      ∧ LocationService.normalizeLocation "BLR" = "Bangalore") ∧
    (recordGet LocationService.locationLookupPairs
        (toLowerStr (trimStr " Atlantis ")) = none
      ∧ LocationService.normalizeLocation " Atlantis " = " Atlantis ") := by
  refine ⟨⟨?h1, ?_⟩, ⟨?h2, ?_⟩, ⟨?h3, ?_⟩, ⟨?h4, ?_⟩⟩
  case h1 => decide
  case h2 => decide
  case h3 => decide
  case h4 => decide
  · exact (normalize_lookup_amended "BLR").1 "Bengaluru" (by decide)
  · exact (normalize_lookup_amended " Atlantis ").2.1 (by decide)
  · exact (normalize_lookup_amended "BLR").2.2.1 "Bangalore" (by decide)
  · exact (normalize_lookup_amended " Atlantis ").2.2.2 (by decide)

/-- C6 counterexample: `" Atlantis "` misses the index, and the
`locationService.ts` variant returns it unchanged, NOT the trimmed original
the claim requires. -/
theorem normalize_untrimmed_cx :
    LocationService.normalizeLocation "  Atlantis  " = "  Atlantis  " ∧
    trimStr "  Atlantis  " = "Atlantis" ∧
    ("  Atlantis  " : String) ≠ "Atlantis" :=
  ⟨by decide, by decide, by decide⟩

/-- C2 (amended): on an empty query the `databaseTest.ts` `searchLocations`
returns the fixed curated popular-locations list truncated to `limit`, as the
claim states; the `locationService.ts` variant instead returns the empty
list, which is what forces the amendment. -/
theorem searchLocations_empty_query_amended (limit : Nat) :
    DatabaseTest.LocationService.searchLocations "" limit
        = DatabaseTest.LocationService.getPopularLocations.take limit ∧
    LocationService.searchLocations "" limit = [] :=
  ⟨rfl, rfl⟩

/-- C2 counterexample: for the empty query the `locationService.ts` variant
returns `[]`, not the (nonempty) popular list truncated to 10. -/
theorem searchLocations_empty_query_cx :
    LocationService.searchLocations "" 10 = [] ∧
    DatabaseTest.LocationService.getPopularLocations.take 10 ≠ [] :=
  ⟨rfl, by decide⟩

/-- C9: on the dynamic-programming edit distance of the search service (and
on the identical copy in the `databaseTest.ts` location service),
`levenshteinDistance(s, s) = 0` for every string `s`, and
`levenshteinDistance(a, b) = levenshteinDistance(b, a)` for all strings `a`
and `b`. -/
theorem levenshteinDistance_refl_and_symm :
    (∀ s : String, SearchServiceB.levenshteinDistance s s = 0) ∧
    (∀ a b : String,
      SearchServiceB.levenshteinDistance a b = SearchServiceB.levenshteinDistance b a) ∧
    (∀ s : String, DatabaseTest.LocationService.levenshteinDistance s s = 0) ∧
    (∀ a b : String,
      DatabaseTest.LocationService.levenshteinDistance a b
        = DatabaseTest.LocationService.levenshteinDistance b a) := by
  refine ⟨fun s => ?_, fun a b => ?_, fun s => ?_, fun a b => ?_⟩
  · exact levChars_self s.data
  · exact levChars_comm a.data b.data
  · exact levChars_self s.data
  · exact levChars_comm a.data b.data

/-! ### The scoring pass and the catch wrapper -/

theorem scoreJob_bounds (now : Int) (params : EnhancedSearchParams) (job : Job) :
    0 ≤ (SearchServiceA.scoreJob now params job).relevanceScore ∧
      (SearchServiceA.scoreJob now params job).relevanceScore ≤ 100 := by
  unfold SearchServiceA.scoreJob
  dsimp only
  split_ifs <;> constructor <;> omega

theorem scoreJobB_nonneg (now : Int) (params : EnhancedSearchParams) (job : Job) :
    0 ≤ (SearchServiceB.scoreJob now params job).score := by
  unfold SearchServiceB.scoreJob
  dsimp only
  split_ifs <;> omega

/-- C8 (amended): every relevance score attached by the scoring pass of
search variant A (base 50, fixed nonnegative increments,
`Math.min(score, 100)`) lies in the range 0 to 100; the scoring pass of
variant B (base 0, fixed nonnegative increments) still attaches only
nonnegative scores, but it applies NO cap and its scores can exceed 100,
which is what forces the amendment. -/
theorem relevance_scores_capped_amended :
    (∀ (now : Int) (params : EnhancedSearchParams) (jobs : List Job)
       (r : SearchServiceA.SearchResult),
      r ∈ SearchServiceA.calculateRelevanceScores now jobs params →
      0 ≤ r.relevanceScore ∧ r.relevanceScore ≤ 100) ∧
    (∀ (now : Int) (params : EnhancedSearchParams) (jobs : List Job)
       (r : SearchServiceB.JobScore),
      r ∈ SearchServiceB.calculateRelevanceScores now jobs params →
      0 ≤ r.score) := by
  constructor
  · intro now params jobs r hr
    unfold SearchServiceA.calculateRelevanceScores at hr
    rcases List.mem_map.mp hr with ⟨job, _, rfl⟩
    exact scoreJob_bounds now params job
  · intro now params jobs r hr
    unfold SearchServiceB.calculateRelevanceScores at hr
    rcases List.mem_map.mp hr with ⟨job, _, rfl⟩
    exact scoreJobB_nonneg now params job

/-- Witness for C8 (amended): both membership hypotheses discharged on
concrete one-job lists — variant A scores its job 50 (inside the bounds),
variant B scores the query-matching job 170 (nonnegative, above the absent
cap). -/
theorem relevance_scores_capped_amended_witness :
    ((⟨⟨"1", "", "", "", "", [], false, false, 0⟩, 50, []⟩ : SearchServiceA.SearchResult)
        ∈ SearchServiceA.calculateRelevanceScores 0
            [⟨"1", "", "", "", "", [], false, false, 0⟩]
            ⟨none, none, none, none, none, none, none, none, none, none, none⟩) ∧
    (0 ≤ ((⟨⟨"1", "", "", "", "", [], false, false, 0⟩, 50, []⟩ :
            SearchServiceA.SearchResult)).relevanceScore ∧
      ((⟨⟨"1", "", "", "", "", [], false, false, 0⟩, 50, []⟩ :
            SearchServiceA.SearchResult)).relevanceScore ≤ 100) ∧
    ((⟨⟨"1", "Engineer", "", "", "", [], false, false, 0⟩, 170⟩ : SearchServiceB.JobScore)
        ∈ SearchServiceB.calculateRelevanceScores 0
            [⟨"1", "Engineer", "", "", "", [], false, false, 0⟩]
            ⟨none, none, none, none, none, some "engineer", none, none, none, none, none⟩) ∧
    0 ≤ ((⟨⟨"1", "Engineer", "", "", "", [], false, false, 0⟩, 170⟩ :
            SearchServiceB.JobScore)).score := by
  have hmemA : (⟨⟨"1", "", "", "", "", [], false, false, 0⟩, 50, []⟩ :
        SearchServiceA.SearchResult)
      ∈ SearchServiceA.calculateRelevanceScores 0
          [⟨"1", "", "", "", "", [], false, false, 0⟩]
          ⟨none, none, none, none, none, none, none, none, none, none, none⟩ := by
    decide
  have hmemB : (⟨⟨"1", "Engineer", "", "", "", [], false, false, 0⟩, 170⟩ :
        SearchServiceB.JobScore)
      ∈ SearchServiceB.calculateRelevanceScores 0
          [⟨"1", "Engineer", "", "", "", [], false, false, 0⟩]
          ⟨none, none, none, none, none, some "engineer", none, none, none, none, none⟩ := by
    decide
  exact ⟨hmemA, relevance_scores_capped_amended.1 0 _ _ _ hmemA,
    hmemB, relevance_scores_capped_amended.2 0 _ _ _ hmemB⟩

/-- C8 counterexample: variant B's scoring pass assigns score 170 (> 100) to
a job whose title matches the query (+100 exact text, +20 partial term,
+50 title), with no cap applied. -/
theorem relevance_score_uncapped_cx :
    (SearchServiceB.calculateRelevanceScores 0
        [⟨"1", "Engineer", "", "", "", [], false, false, 0⟩]
        ⟨none, none, none, none, none, some "engineer", none, none, none, none, none⟩).map
      SearchServiceB.JobScore.score = [170] ∧ ¬ ((170 : Int) ≤ 100) :=
  ⟨by decide, by decide⟩

/-- C5: the `try`/`catch` of variant A's `searchJobs` never lets an exception
reach the caller: whatever body runs inside the `try`, a normal result is
passed through and any thrown error is converted to the empty result
`{jobs: [], total: 0, results: []}`; `searchJobs` itself is this wrapper
applied to the (total) filtering/scoring pipeline. -/
theorem searchJobs_never_throws :
    (∀ (body : Int → List Job → EnhancedSearchParams → Except String SearchServiceA.SearchOut)
       (now : Int) (jobs : List Job) (params : EnhancedSearchParams),
      (∃ r, body now jobs params = Except.ok r
        ∧ SearchServiceA.searchJobsTry body now jobs params = r) ∨
      (∃ e, body now jobs params = Except.error e
        ∧ SearchServiceA.searchJobsTry body now jobs params
            = SearchServiceA.emptySearchOut)) ∧
    (∀ (now : Int) (jobs : List Job) (params : EnhancedSearchParams),
      SearchServiceA.searchJobs now jobs params
        = SearchServiceA.searchJobsTry SearchServiceA.searchJobsBody now jobs params) := by
  constructor
  · intro body now jobs params
    cases h : body now jobs params with
    | ok r =>
      exact Or.inl ⟨r, rfl, by unfold SearchServiceA.searchJobsTry; rw [h]⟩
    | error e =>
      exact Or.inr ⟨e, rfl, by unfold SearchServiceA.searchJobsTry; rw [h]⟩
  · intro now jobs params
    rfl

theorem matchesExperienceFilter_extract_entry (desc : String) :
    SearchServiceA.matchesExperienceFilter
      (SearchServiceA.extractExperienceLevel desc) "entry" = true := by
  unfold SearchServiceA.extractExperienceLevel
  dsimp only
  split_ifs <;> decide

/-- C10: variant A's `extractExperienceLevel` always returns one of `entry`,
`mid`, `senior`, `lead` (defaulting to `mid`), `matchesExperienceFilter`
accepts every such tier against the `entry` filter (index 0 in the
hierarchy), and consequently `applyFilters` with only an `entry` experience
filter keeps every job. -/
theorem entry_filter_never_excludes :
    ∀ desc : String,
      (SearchServiceA.extractExperienceLevel desc = "entry"
        ∨ SearchServiceA.extractExperienceLevel desc = "mid"
        ∨ SearchServiceA.extractExperienceLevel desc = "senior"
        ∨ SearchServiceA.extractExperienceLevel desc = "lead") ∧
      SearchServiceA.matchesExperienceFilter
        (SearchServiceA.extractExperienceLevel desc) "entry" = true ∧
      (∀ job : Job,
        SearchServiceA.applyFilters [job] (some ⟨none, some "entry", none, none⟩) = [job]) := by
  intro desc
  refine ⟨?_, matchesExperienceFilter_extract_entry desc, ?_⟩
  · unfold SearchServiceA.extractExperienceLevel
    dsimp only
    split_ifs <;> simp
  · intro job
    have h := matchesExperienceFilter_extract_entry job.description
    simp [SearchServiceA.applyFilters, h]

/-! ### The ranking of `searchLocations` in `databaseTest.ts` -/

theorem isPrefixOf_self (l : List Char) : l.isPrefixOf l = true := by
  induction l with
  | nil => rfl
  | cons a as ih => simp [List.isPrefixOf, ih]

theorem self_mem_tails (l : List Char) : l ∈ l.tails := by
  cases l <;> simp [List.tails]

theorem beq_startsWith {s pat : String} (h : (s == pat) = true) :
    startsWithStr s pat = true := by
  have hs : s = pat := eq_of_beq h
  subst hs
  unfold startsWithStr
  exact isPrefixOf_self _

theorem startsWith_includes {s pat : String} (h : startsWithStr s pat = true) :
    includesStr s pat = true := by
  unfold includesStr
  rw [List.any_eq_true]
  exact ⟨s.data, self_mem_tails _, h⟩

/-- The cross-multiplied Boolean fuzzy test used by the executable embedding
is exactly the rational comparison the source performs. -/
theorem similarityAbove6_iff (str1 str2 : String) :
    similarityAbove6 str1 str2 = true
      ↔ SearchServiceB.calculateSimilarity str1 str2 > 0.6 := by
  have h06 : (0.6 : ℚ) = 3 / 5 := by norm_num
  unfold similarityAbove6
  by_cases hab : str1 = str2
  · rw [if_pos hab]
    subst hab
    rw [simB_self]
    norm_num
  · rw [if_neg hab]
    by_cases ha : str1.data.length = 0
    · rw [if_pos ha]
      have h0 : SearchServiceB.calculateSimilarity str1 str2 = 0 := by
        apply simB_one_empty
        left
        have h1 : str1 = "" := string_empty_iff_data.mpr (List.length_eq_zero.mp ha)
        exact ⟨h1, fun hb => hab (h1.trans hb.symm)⟩
      rw [h0]
      norm_num
    · rw [if_neg ha]
      by_cases hb : str2.data.length = 0
      · rw [if_pos hb]
        have h0 : SearchServiceB.calculateSimilarity str1 str2 = 0 := by
          apply simB_one_empty
          right
          exact ⟨fun hh => ha (by rw [string_empty_iff_data.mp hh]; rfl),
            string_empty_iff_data.mpr (List.length_eq_zero.mp hb)⟩
        rw [h0]
        norm_num
      · rw [if_neg hb]
        have hL : 0 < max str1.data.length str2.data.length := by
          simp only [Nat.lt_iff_add_one_le]
          omega
        rw [simB_eq_formula str1 str2 hL]
        have hd : levChars str1.data str2.data ≤ max str1.data.length str2.data.length :=
          levChars_le_max str1.data str2.data
        have hLQ : (0:ℚ) < ((max str1.data.length str2.data.length : ℕ) : ℚ) := by
          exact_mod_cast hL
        rw [h06, decide_eq_true_eq]
        have hsub : ((max str1.data.length str2.data.length : ℕ) : ℚ)
              - (levChars str1.data str2.data : ℚ)
            = ((max str1.data.length str2.data.length
                  - levChars str1.data str2.data : ℕ) : ℚ) := by
          rw [Nat.cast_sub hd]
        rw [hsub]
        constructor
        · intro h
          rw [gt_iff_lt, div_lt_div_iff₀ (by norm_num) hLQ]
          have hq : ((3 * max str1.data.length str2.data.length : ℕ) : ℚ)
              < ((5 * (max str1.data.length str2.data.length
                    - levChars str1.data str2.data) : ℕ) : ℚ) := by
            exact_mod_cast h
          push_cast at hq
          push_cast
          linarith
        · intro h
          rw [gt_iff_lt, div_lt_div_iff₀ (by norm_num) hLQ] at h
          have hq : ((3 * max str1.data.length str2.data.length : ℕ) : ℚ)
              < ((5 * (max str1.data.length str2.data.length
                    - levChars str1.data str2.data) : ℕ) : ℚ) := by
            push_cast
            push_cast at h
            linarith
          exact_mod_cast hq

/-- The comparator of `searchLocations` induces exactly the ordering "tier of
the primary name, ties broken alphabetically". -/
theorem relevanceCmp_le_iff (st a b : String) :
    (DatabaseTest.LocationService.relevanceCmp st a b ≤ 0)
      ↔ (matchTier st a < matchTier st b
        ∨ (matchTier st a = matchTier st b ∧ lexCompareChars a.data b.data ≤ 0)) := by
  have ha1 := @beq_startsWith (toLowerStr a) st
  have ha2 := @startsWith_includes (toLowerStr a) st
  have hb1 := @beq_startsWith (toLowerStr b) st
  have hb2 := @startsWith_includes (toLowerStr b) st
  unfold DatabaseTest.LocationService.relevanceCmp matchTier
  dsimp only
  cases hea : (toLowerStr a == st) <;> cases heb : (toLowerStr b == st) <;>
    cases hsa : startsWithStr (toLowerStr a) st <;>
    cases hsb : startsWithStr (toLowerStr b) st <;>
    cases hia : includesStr (toLowerStr a) st <;>
    cases hib : includesStr (toLowerStr b) st <;>
    simp_all

theorem orderedInsert_congr {α : Type} {r r' : α → α → Prop}
    [DecidableRel r] [DecidableRel r'] (hrr : ∀ x y, r x y ↔ r' x y) (x : α) :
    ∀ l : List α, l.orderedInsert r x = l.orderedInsert r' x := by
  intro l
  induction l with
  | nil => rfl
  | cons y ys ih =>
    simp only [List.orderedInsert]
    by_cases hxy : r x y
    · rw [if_pos hxy, if_pos ((hrr x y).mp hxy)]
    · rw [if_neg hxy, if_neg (fun hh => hxy ((hrr x y).mpr hh)), ih]

theorem insertionSort_congr {α : Type} {r r' : α → α → Prop}
    [DecidableRel r] [DecidableRel r'] (hrr : ∀ x y, r x y ↔ r' x y) :
    ∀ l : List α, l.insertionSort r = l.insertionSort r' := by
  intro l
  induction l with
  | nil => rfl
  | cons y ys ih => simp only [List.insertionSort, ih, orderedInsert_congr hrr]

/-- The membership test of `searchLocations` (four conditions with early
returns) coincides with the two-condition spec-side test: an exact and a
prefix match are substring matches. -/
theorem entryMatches_eq_spec (st : String) (e : String × List String) :
    DatabaseTest.LocationService.entryMatches st e = entryMatchesSpec st e := by
  unfold DatabaseTest.LocationService.entryMatches entryMatchesSpec
  congr 1
  funext name
  dsimp only
  cases hic : includesStr (toLowerStr name) st
  · have h1 : (toLowerStr name == st) = false := by
      cases hb : (toLowerStr name == st)
      · rfl
      · exact absurd (startsWith_includes (beq_startsWith hb)) (by simp [hic])
    have h2 : startsWithStr (toLowerStr name) st = false := by
      cases hsb : startsWithStr (toLowerStr name) st
      · rfl
      · exact absurd (startsWith_includes hsb) (by simp [hic])
    simp [h1, h2, hic]
  · simp [hic]

/-- The `Set`-based collection loop equals a plain filter when the primary
keys are distinct (which they are: record keys). -/
theorem collectMatches_eq_filter (st : String) :
    ∀ (l : List (String × List String)) (acc : List String),
      (∀ e ∈ l, e.1 ∉ acc) → (l.map Prod.fst).Nodup →
      DatabaseTest.LocationService.collectMatches st l acc
        = acc ++ (l.filter (DatabaseTest.LocationService.entryMatches st)).map Prod.fst := by
  intro l
  induction l with
  | nil =>
    intro acc _ _
    simp [DatabaseTest.LocationService.collectMatches]
  | cons e rest ih =>
    intro acc hfresh hnd
    have hmemacc : e.1 ∉ acc := hfresh e (List.mem_cons_self e rest)
    have hcontains : (acc.contains e.1) = false := by
      cases hc : acc.contains e.1
      · rfl
      · exact absurd (List.elem_iff.mp hc) hmemacc
    have hndrest : (rest.map Prod.fst).Nodup := (List.nodup_cons.mp hnd).2
    have hheadnot : e.1 ∉ rest.map Prod.fst := (List.nodup_cons.mp hnd).1
    unfold DatabaseTest.LocationService.collectMatches
    cases hm : DatabaseTest.LocationService.entryMatches st e
    · rw [if_neg (by simp [hm])]
      rw [ih acc (fun x hx => hfresh x (List.mem_cons_of_mem e hx)) hndrest]
      simp [List.filter_cons, hm]
    · rw [if_pos (by simp [hcontains, hmemacc])]
      rw [ih (acc ++ [e.1]) ?_ hndrest]
      · simp [List.filter_cons, hm]
      · intro x hx
        simp only [List.mem_append, List.mem_singleton]
        rintro (hxa | hxe)
        · exact hfresh x (List.mem_cons_of_mem e hx) hxa
        · exact hheadnot (hxe ▸ List.mem_map_of_mem Prod.fst hx)

/-- C1 (amended): for every query whose trimmed form is nonempty,
`searchLocations` of `databaseTest.ts` returns exactly the primaries whose
primary name OR one of whose registered variations contains the trimmed
lowercased query or is similar to it above 0.6, sorted by the match tier of
the primary name alone (exact, prefix, substring, then all remaining —
including primaries matched only through a variation) with alphabetical
order inside each tier, truncated to the first `limit` entries. -/
theorem searchLocations_ranking_amended (query : String) (limit : Nat)
    (_h2 : 2 ≤ query.data.length) (ht : trimStr query ≠ "") :
    DatabaseTest.LocationService.searchLocations query limit
      = searchLocationsRankedAmended query limit := by
  have hq : (query == "") = false := by
    cases hqb : query == ""
    · rfl
    · exact absurd (by rw [eq_of_beq hqb]; rfl) ht
  have htl : (trimStr query).data.length ≠ 0 := fun hh =>
    ht (string_empty_iff_data.mpr (List.length_eq_zero.mp hh))
  have htl2 : (trimStr query).length ≠ 0 := htl
  unfold DatabaseTest.LocationService.searchLocations searchLocationsRankedAmended
  rw [if_neg (by simp [hq, htl, htl2])]
  dsimp only
  rw [collectMatches_eq_filter _ DatabaseTest.LocationService.locationMappings []
    (by intro e _ hx; exact absurd hx (List.not_mem_nil e.1)) (by decide)]
  rw [List.nil_append]
  rw [List.filter_congr (fun e _ => entryMatches_eq_spec (trimStr (toLowerStr query)) e)]
  rw [insertionSort_congr (relevanceCmp_le_iff (trimStr (toLowerStr query)))]

/-- Witness for C1 (amended): the hypotheses discharged at the concrete query
`"del"` with limit 5. -/
theorem searchLocations_ranking_amended_witness :
    2 ≤ ("del" : String).data.length ∧ trimStr "del" ≠ "" ∧
    DatabaseTest.LocationService.searchLocations "del" 5
      = searchLocationsRankedAmended "del" 5 :=
  ⟨by decide, by decide, searchLocations_ranking_amended "del" 5 (by decide) (by decide)⟩

/-- C1 counterexample: at the query `"wfh"` the code returns
`["WFH", "Remote", "Work from Home"]` — `"Remote"` and `"Work from Home"`
match only through their variation `"WFH"` and their canonical names are
neither substring matches nor 0.6-similar to the query, so the ranking the
claim describes (over the canonical names) returns `["WFH"]` instead. -/
theorem searchLocations_ranking_cx :
    DatabaseTest.LocationService.searchLocations "wfh" 10
      ≠ searchLocationsClaimC1 "wfh" 10 := by
  decide
